import Mathlib

/-!
# Admin-Dashboard: tenant registry services

A shallow embedding of `src/services/domainService.js` and
`src/services/collegeService.js`, together with the statements that the
specification makes about them.

* JavaScript strings are Lean `String`s, processed through their character lists.
* The Firestore document store is an explicit state `Db`; every operation takes the
  store and returns its outcome together with the store it leaves behind.
* A JavaScript exception is the `error` case of `Except`.
* `Timestamp.now()` is a parameter of the operation that calls it.
-/

namespace AdminDashboard

/-! ## Regular expressions

The fragment of JavaScript regular expressions that `domainRegex` is written in:
character classes, a literal character, concatenation and counted repetition.
`test` on a pattern anchored with `^` and `$` decides membership of the whole
string, which is computed here with derivatives. -/

/-- Regular expressions over characters. `fail` and `eps` and `alt` arise as derivatives. -/
inductive Regex where
  | fail : Regex
  | eps : Regex
  | cls (p : Char → Bool) : Regex
  | seq (r s : Regex) : Regex
  | alt (r s : Regex) : Regex
  | rep (r : Regex) (lo : Nat) (hi : Option Nat) : Regex

namespace Regex

/-- Whether the expression matches the empty string. -/
def nullable : Regex → Bool
  | fail => false
  | eps => true
  | cls _ => false
  | seq r s => nullable r && nullable s
  | alt r s => nullable r || nullable s
  | rep r lo _ => lo == 0 || nullable r

/-- The derivative of an expression by one character. A repetition `r{lo,hi}` whose
upper bound is exhausted matches nothing more; otherwise one copy of `r` is consumed. -/
def deriv : Regex → Char → Regex
  | fail, _ => fail
  | eps, _ => fail
  | cls p, c => if p c then eps else fail
  | seq r s, c =>
      if nullable r then alt (seq (deriv r c) s) (deriv s c) else seq (deriv r c) s
  | alt r s, c => alt (deriv r c) (deriv s c)
  | rep r lo hi, c =>
      match hi with
      | some 0 => fail
      | some (h + 1) => seq (deriv r c) (rep r (lo - 1) (some h))
      | none => seq (deriv r c) (rep r (lo - 1) none)

/-- Whether the expression matches the whole character list. -/
def matchesChars : Regex → List Char → Bool
  | r, [] => nullable r
  | r, c :: cs => matchesChars (deriv r c) cs

/-- The method `RegExp.prototype.test` for a pattern written between `^` and `$`. -/
def test (r : Regex) (s : String) : Bool :=
  matchesChars r s.toList

end Regex

/-- The class `[a-zA-Z]`. -/
def isAsciiLetter (c : Char) : Bool :=
  (97 ≤ c.toNat && c.toNat ≤ 122) || (65 ≤ c.toNat && c.toNat ≤ 90)

/-- The class `[a-zA-Z0-9]`. -/
def isAsciiAlnum (c : Char) : Bool :=
  isAsciiLetter c || (48 ≤ c.toNat && c.toNat ≤ 57)

/-- The class `[a-zA-Z0-9-]`. -/
def isAsciiAlnumHyphen (c : Char) : Bool :=
  isAsciiAlnum c || c.toNat == 45

/-- The class matched by `\.`. -/
def isDot (c : Char) : Bool :=
  c.toNat == 46

/-- The pattern of `addDomain`:
`/^[a-zA-Z0-9][a-zA-Z0-9-]{0,61}[a-zA-Z0-9]?\.[a-zA-Z]{2,}$/`. -/
def domainRegex : Regex :=
  .seq (.cls isAsciiAlnum)
    (.seq (.rep (.cls isAsciiAlnumHyphen) 0 (some 61))
      (.seq (.rep (.cls isAsciiAlnum) 0 (some 1))
        (.seq (.cls isDot)
          (.rep (.cls isAsciiLetter) 2 none))))

/-! ## Strings -/

/-- The pieces of a character list between the occurrences of a separator, as
`String.prototype.split` cuts them: a list with no separator is its own single piece. -/
def splitChars (sep : Char) : List Char → List (List Char)
  | [] => [[]]
  | c :: cs =>
    if c = sep then [] :: splitChars sep cs
    else
      match splitChars sep cs with
      | [] => [[c]]
      | piece :: pieces => (c :: piece) :: pieces

/-- The method `s.split(sep)` for a separator of one character. -/
def split (s : String) (sep : Char) : List String :=
  (splitChars sep s.toList).map String.mk

/-! ## The document store

The Firestore collection `colleges`, and the SDK calls that the two services make
on it. A store whose `failure` is `some code` rejects every request with a
`FirestoreError` of that code (network down, permission denied). -/

/-- The collection both services work on (`COLLEGE_COLLECTION`). -/
def COLLEGE_COLLECTION : String := "colleges"

/-- The fixed tenant id of `domainService.js`. -/
def COLLEGE_ID : String := "tMEBxMvwxTkfeYU5mXDW"

/-- The fields of a college document. A field that the document lacks is `none`
(`undefined` when read in JavaScript). -/
structure DocData where
  name : Option String
  domains : Option (List String)
  createdAt : Option Nat
  updatedAt : Option Nat
  deriving DecidableEq, Repr

/-- The errors that the services and the store raise. -/
inductive Error where
  /-- `new Error('College not found')` -/
  | collegeNotFound
  /-- `new Error('Failed to load domains. Please try again.')` -/
  | loadFailed
  /-- `new Error('Invalid domain format. Example: tint.edu.in')` -/
  | invalidFormat
  /-- `new Error('This domain already exists')` -/
  | duplicateDomain
  /-- `new Error('Failed to remove domain. Please try again')` -/
  | removeFailed
  /-- The `TypeError` of reading a property of `undefined`. -/
  | typeError
  /-- A `FirestoreError` with its code. -/
  | firestore (code : String)
  deriving DecidableEq, Repr

/-- The `message` of an error. -/
def Error.message : Error → String
  | .collegeNotFound => "College not found"
  | .loadFailed => "Failed to load domains. Please try again."
  | .invalidFormat => "Invalid domain format. Example: tint.edu.in"
  | .duplicateDomain => "This domain already exists"
  | .removeFailed => "Failed to remove domain. Please try again"
  | .typeError => "Cannot read properties of undefined"
  | .firestore code => code

/-- The state of the document store: the documents at and below `colleges`, by their path
below `colleges` (for a document of the collection itself, its id), and the failure, if
any, with which the store answers every request. -/
structure Db where
  failure : Option String
  colleges : String → Option DocData

/-- The store with no document, answering requests. -/
def emptyDb : Db :=
  { failure := none, colleges := fun _ => none }

/-- The store with the document of the given path replaced. -/
def Db.put (db : Db) (id : String) (data : DocData) : Db :=
  { db with colleges := Function.update db.colleges id (some data) }

/-- The document with its fields `domains` and `updatedAt` replaced. -/
def DocData.setDomains (data : DocData) (domains : List String) (updatedAt : Nat) : DocData :=
  { data with domains := some domains, updatedAt := some updatedAt }

/-- The call `getDoc(ref)` for the reference of the document whose path below `colleges`
is `id`: the data of the snapshot, `none` when there is no such document (`exists()` is
false and `data()` is `undefined`). -/
def getDoc (db : Db) (id : String) : Except Error (Option DocData) :=
  match db.failure with
  | some code => .error (.firestore code)
  | none => .ok (db.colleges id)

/-- The call `setDoc(ref, data)` for the reference of the document whose path below
`colleges` is `id`: writes the whole document. -/
def setDoc (db : Db) (id : String) (data : DocData) : Except Error Unit × Db :=
  match db.failure with
  | some code => (.error (.firestore code), db)
  | none => (.ok (), db.put id data)

/-- The sentinel values that `updateDoc` receives for the field `domains`. -/
inductive FieldValue where
  | arrayUnion (element : String)
  | arrayRemove (element : String)
  deriving DecidableEq, Repr

/-- The effect of a sentinel on the current value of the field: `arrayUnion` appends the
element unless it is there already, `arrayRemove` removes every occurrence of it, and a
field that is missing counts as the empty array. -/
def FieldValue.apply : FieldValue → Option (List String) → List String
  | .arrayUnion element, current =>
      if element ∈ current.getD [] then current.getD [] else current.getD [] ++ [element]
  | .arrayRemove element, current => (current.getD []).filter (fun x => x != element)

/-- The call `updateDoc(ref, {domains: value, updatedAt: updatedAt})` for the reference of
the document whose path below `colleges` is `id`: fails with `not-found` when the document
does not exist, and otherwise changes the two fields and leaves the others. -/
def updateDoc (db : Db) (id : String) (value : FieldValue) (updatedAt : Nat) :
    Except Error Unit × Db :=
  match db.failure with
  | some code => (.error (.firestore code), db)
  | none =>
    match db.colleges id with
    | none => (.error (.firestore "not-found"), db)
    | some data => (.ok (), db.put id (data.setDomains (value.apply data.domains) updatedAt))

/-- A document reference below `colleges`: the path of the document below the collection
and its `id`, the last segment of the path. -/
structure DocumentReference where
  path : String
  id : String
  deriving DecidableEq, Repr

/-- Whether the characters hold `//` (the test `path.indexOf('//') >= 0`). -/
def hasDoubleSlash : List Char → Bool
  | [] => false
  | c :: cs => (c == '/' && cs.head? == some '/') || hasDoubleSlash cs

/-- The segments that a path component contributes to a resource path:
`component.split('/').filter(segment => segment.length > 0)`. -/
def pathSegments (component : String) : List String :=
  (split component '/').filter (fun segment => segment.length > 0)

/-- The call `doc(db, 'colleges', collegeId)`. The SDK refuses a component that holds `//`,
cuts the component at its slashes and drops the empty segments, and refuses the path
unless `colleges` and the segments left are an even number of segments. The reference has
the last segment for `id`; so `c1/` is the reference of `c1`, and the empty string and
`a/b` are refused with `invalid-argument`. -/
def doc (collegeId : String) : Except Error DocumentReference :=
  if hasDoubleSlash collegeId.toList then .error (.firestore "invalid-argument")
  else if (1 + (pathSegments collegeId).length) % 2 = 0 then
    match (pathSegments collegeId).getLast? with
    | some id => .ok { path := "/".intercalate (pathSegments collegeId), id := id }
    | none => .error (.firestore "invalid-argument")
  else .error (.firestore "invalid-argument")

/-! ## `collegeService.js` -/

/-- The object `{ id, ...data }` that `getOrCreateCollege` returns. -/
structure College where
  id : String
  name : Option String
  domains : Option (List String)
  createdAt : Option Nat
  updatedAt : Option Nat
  deriving DecidableEq, Repr

/-- The object `{ id: id, ...data }`. -/
def College.ofData (id : String) (data : DocData) : College :=
  { id := id, name := data.name, domains := data.domains,
    createdAt := data.createdAt, updatedAt := data.updatedAt }

/-- The arguments of one call of `getOrCreateCollege`, with the values that its two
calls of `Timestamp.now()` return. -/
structure CreateCall where
  collegeId : String
  collegeName : String
  domains : List String
  createdNow : Nat
  updatedNow : Nat
  deriving DecidableEq, Repr

/-- The object `collegeData` that a call of `getOrCreateCollege` builds when it finds no
document. -/
def CreateCall.collegeData (call : CreateCall) : DocData :=
  { name := some call.collegeName, domains := some call.domains,
    createdAt := some call.createdNow, updatedAt := some call.updatedNow }

/-- The snapshot that `getDoc` resolves to: the `id` of the reference it was asked for and
the data of the document, `none` when `exists()` is false. -/
structure DocumentSnapshot where
  id : String
  data : Option DocData
  deriving DecidableEq, Repr

/-- The function `getOrCreateCollege` up to its first await: `doc(db, COLLEGE_COLLECTION,
collegeId)` and `getDoc(collegeRef)`, giving the reference and the snapshot with which the
function goes on. -/
def getOrCreateCollege.read (db : Db) (call : CreateCall) :
    Except Error (DocumentReference × DocumentSnapshot) :=
  match doc call.collegeId with
  | .error e => .error e
  | .ok collegeRef =>
    match getDoc db collegeRef.path with
    | .error e => .error e
    | .ok data => .ok (collegeRef, { id := collegeRef.id, data := data })

/-- The rest of `getOrCreateCollege` once the snapshot is there: when the snapshot does
not exist the new document is written with `setDoc` and returned under the `collegeId`
that was given, otherwise the data of the snapshot is returned under `collegeSnap.id`. -/
def getOrCreateCollege.write (db : Db) (call : CreateCall) (collegeRef : DocumentReference)
    (collegeSnap : DocumentSnapshot) : Except Error College × Db :=
  match collegeSnap.data with
  | none =>
    match setDoc db collegeRef.path call.collegeData with
    | (.error e, db') => (.error e, db')
    | (.ok _, db') => (.ok (College.ofData call.collegeId call.collegeData), db')
  | some data => (.ok (College.ofData collegeSnap.id data), db)

/-- The function `getOrCreateCollege(collegeId, collegeName, domains)`; its `catch` rethrows
the error it caught. -/
def getOrCreateCollege (db : Db) (call : CreateCall) : Except Error College × Db :=
  match getOrCreateCollege.read db call with
  | .error e => (.error e, db)
  | .ok (collegeRef, collegeSnap) => getOrCreateCollege.write db call collegeRef collegeSnap

/-! ## `domainService.js`

Its three references are `doc(db, 'colleges', COLLEGE_ID)`; the constant has no slash, so
the path of the reference below `colleges` is `COLLEGE_ID` itself. -/

/-- The object `{ collegeName, domains }` that `getCollegeDomains` returns. -/
structure CollegeDomains where
  collegeName : Option String
  domains : List String
  deriving DecidableEq, Repr

/-- The `try` block of `getCollegeDomains`. -/
def getCollegeDomains.body (db : Db) : Except Error CollegeDomains :=
  match getDoc db COLLEGE_ID with
  | .error e => .error e
  | .ok none => .error .collegeNotFound
  | .ok (some data) => .ok { collegeName := data.name, domains := data.domains.getD [] }

/-- The function `getCollegeDomains()`: whatever its `try` block throws, the `catch` throws
`new Error('Failed to load domains. Please try again.')` in its place. -/
def getCollegeDomains (db : Db) : Except Error CollegeDomains :=
  match getCollegeDomains.body db with
  | .ok result => .ok result
  | .error _ => .error .loadFailed

/-- The function `addDomain(domain)`. The condition `collegeSnap.exists` names the method
without calling it, so it holds for every snapshot, and `collegeSnap.data().domains` is
read also when the document is missing, where `data()` is `undefined`. The `catch`
rethrows the error it caught. -/
def addDomain (db : Db) (domain : String) (now : Nat) : Except Error Bool × Db :=
  if !domainRegex.test domain then (.error .invalidFormat, db)
  else
    match getDoc db COLLEGE_ID with
    | .error e => (.error e, db)
    | .ok none => (.error .typeError, db)
    | .ok (some data) =>
      let currentDomains := data.domains.getD []
      if currentDomains.contains domain then (.error .duplicateDomain, db)
      else
        match updateDoc db COLLEGE_ID (.arrayUnion domain) now with
        | (.error e, db') => (.error e, db')
        | (.ok _, db') => (.ok true, db')

/-- The function `removeDomain(domain)`: whatever `updateDoc` throws, the `catch` throws
`new Error('Failed to remove domain. Please try again')` in its place. -/
def removeDomain (db : Db) (domain : String) (now : Nat) : Except Error Bool × Db :=
  match updateDoc db COLLEGE_ID (.arrayRemove domain) now with
  | (.error _, db') => (.error .removeFailed, db')
  | (.ok _, db') => (.ok true, db')

/-- The `try` block of `isDomainAllowed`: `emailDomain` is the element of index 1 of
`email.split('@')`, `undefined` when there is none, and `===` never equates `undefined`
with a string. -/
def isDomainAllowed.body (db : Db) (email : String) : Except Error Bool :=
  match getCollegeDomains db with
  | .error e => .error e
  | .ok result =>
    let emailDomain : Option String := (split email '@')[1]?
    .ok (result.domains.any fun domain => emailDomain == some domain)

/-- The function `isDomainAllowed(email)`: the `catch` returns `false`. -/
def isDomainAllowed (db : Db) (email : String) : Except Error Bool :=
  match isDomainAllowed.body db email with
  | .ok allowed => .ok allowed
  | .error _ => .ok false

/-- The part of an email after its last `@`, as the specification describes the domain of
an email; `none` when the email has no `@`. It is the yardstick that `isDomainAllowed` is
compared with, and is not part of the code. -/
def afterLastAt : List Char → Option (List Char)
  | [] => none
  | c :: cs =>
    match afterLastAt cs with
    | some rest => some rest
    | none => if c = '@' then some cs else none

/-- The domain of an email according to the specification: what follows the last `@`. -/
def specEmailDomain (email : String) : Option String :=
  (afterLastAt email.toList).map String.mk

/-! ## Sequences of calls -/

/-- A store whose only document is the tenant record, holding the given domains. -/
def tenantDb (domains : Option (List String)) : Db :=
  { failure := none,
    colleges := fun id =>
      if id = COLLEGE_ID then
        some { name := some "College", domains := domains, createdAt := some 0,
               updatedAt := some 0 }
      else none }

/-- One call of a mutating operation of the two services. -/
inductive Op where
  | create (call : CreateCall)
  | add (domain : String) (now : Nat)
  | remove (domain : String) (now : Nat)
  deriving DecidableEq, Repr

/-- The store that a call leaves behind, whether it returns or throws. -/
def Op.run (db : Db) : Op → Db
  | .create call => (getOrCreateCollege db call).2
  | .add domain now => (addDomain db domain now).2
  | .remove domain now => (removeDomain db domain now).2

/-- The store after a sequence of calls, one after the other. -/
def runOps (db : Db) (ops : List Op) : Db :=
  ops.foldl Op.run db

/-- The domains list of every stored record is free of repeated entries. -/
def NoDuplicateDomains (db : Db) : Prop :=
  ∀ id data, db.colleges id = some data → (data.domains.getD []).Nodup

/-- The domains that a call of `getOrCreateCollege` is given are free of repeated
entries; the other calls carry no list. -/
def Op.GivenNodup : Op → Prop
  | .create call => call.domains.Nodup
  | .add _ _ => True
  | .remove _ _ => True

/-! ## Two overlapping calls of `getOrCreateCollege`

Each call awaits twice: the read (`getDoc`) and, when the snapshot does not exist, the
write (`setDoc`). Between the two the other call may run. A call whose `collegeId` the
function `doc` refuses throws in its first step. -/

/-- How far a call of `getOrCreateCollege` has come. -/
inductive Progress where
  | start
  | hasRead (collegeRef : DocumentReference) (collegeSnap : DocumentSnapshot)
  | returned (result : Except Error College)

/-- One step of a call: the read from the start, then the rest of the function. -/
def Progress.step (db : Db) (call : CreateCall) : Progress → Progress × Db
  | .start =>
    match getOrCreateCollege.read db call with
    | .error e => (.returned (.error e), db)
    | .ok (collegeRef, collegeSnap) => (.hasRead collegeRef collegeSnap, db)
  | .hasRead collegeRef collegeSnap =>
    match getOrCreateCollege.write db call collegeRef collegeSnap with
    | (result, db') => (.returned result, db')
  | .returned result => (.returned result, db)

/-- The store and the progress of the two callers. -/
structure Race where
  db : Db
  first : Progress
  second : Progress

/-- One step of the caller chosen by the scheduler (`false` the first, `true` the second). -/
def Race.step (call₁ call₂ : CreateCall) (s : Race) (secondMoves : Bool) : Race :=
  if secondMoves then
    match s.second.step s.db call₂ with
    | (progress, db') => { s with db := db', second := progress }
  else
    match s.first.step s.db call₁ with
    | (progress, db') => { s with db := db', first := progress }

/-- The outcome of a schedule from a store on which neither call has started. -/
def Race.run (call₁ call₂ : CreateCall) (db : Db) (schedule : List Bool) : Race :=
  schedule.foldl (Race.step call₁ call₂) { db := db, first := .start, second := .start }

/-- The schedules in which each caller takes its two steps. -/
def interleavings : List (List Bool) :=
  [[false, false, true, true], [false, true, false, true], [false, true, true, false],
   [true, false, false, true], [true, false, true, false], [true, true, false, false]]

/-- Only one creation took effect: both callers returned the record that the store holds
at the path, with the same name, domains and creation time. -/
def Race.OneCreation (path : String) (s : Race) : Prop :=
  ∃ r₁ r₂ data, s.first = .returned (.ok r₁) ∧ s.second = .returned (.ok r₂) ∧
    s.db.colleges path = some data ∧
    r₁.name = data.name ∧ r₁.domains = data.domains ∧ r₁.createdAt = data.createdAt ∧
    r₂.name = data.name ∧ r₂.domains = data.domains ∧ r₂.createdAt = data.createdAt

/-! ## The format check of `addDomain` -/

/-- C2: the multi-label domain `tint.edu.in`, the example of the error message of
`addDomain`, does not pass the format check: on every store `addDomain` fails for it with
the error whose message recommends it, and the store is left as it was. -/
theorem addDomain_rejects_multi_label_example :
    domainRegex.test "tint.edu.in" = false ∧
    Error.message .invalidFormat = "Invalid domain format. Example: tint.edu.in" ∧
    ∀ (db : Db) (now : Nat), addDomain db "tint.edu.in" now = (.error .invalidFormat, db) := by
  refine ⟨by decide, rfl, fun db now => ?_⟩
  have h : domainRegex.test "tint.edu.in" = false := by decide
  simp [addDomain, h]

/-- C3: a label with a trailing hyphen passes the format check. `a-.edu` is accepted, the
call goes on to the store and the domain is written, while `bad_domain`, `-lead.edu` and
`a.c` are rejected on every store before the store is read. -/
theorem addDomain_accepts_trailing_hyphen :
    domainRegex.test "a-.edu" = true ∧
    (addDomain (tenantDb (some [])) "a-.edu" 1).1 = .ok true ∧
    ((addDomain (tenantDb (some [])) "a-.edu" 1).2.colleges COLLEGE_ID).bind
      (fun data => data.domains) = some ["a-.edu"] ∧
    ∀ (db : Db) (now : Nat),
      addDomain db "bad_domain" now = (.error .invalidFormat, db) ∧
      addDomain db "-lead.edu" now = (.error .invalidFormat, db) ∧
      addDomain db "a.c" now = (.error .invalidFormat, db) := by
  have h : domainRegex.test "a-.edu" = true := by decide
  have h₁ : domainRegex.test "bad_domain" = false := by decide
  have h₂ : domainRegex.test "-lead.edu" = false := by decide
  have h₃ : domainRegex.test "a.c" = false := by decide
  refine ⟨h, ?_, ?_, fun db now => ?_⟩
  · simp [addDomain, h, getDoc, tenantDb, updateDoc]
  · simp [addDomain, h, getDoc, tenantDb, updateDoc, FieldValue.apply, Db.put,
      DocData.setDomains]
  · simp [addDomain, h₁, h₂, h₃]

/-! ## `getCollegeDomains` and `isDomainAllowed` -/

/-- C9: on a store without the tenant record the `try` block of `getCollegeDomains` throws
`College not found`, but the caller receives `Failed to load domains. Please try again.`,
the same error as for a failing store; no store makes `getCollegeDomains` deliver
`College not found`. A record that is there is returned with its name and domains, the
empty list when it has no domains field. -/
theorem getCollegeDomains_missing_record_loadFailed :
    getCollegeDomains.body emptyDb = .error .collegeNotFound ∧
    getCollegeDomains emptyDb = .error .loadFailed ∧
    getCollegeDomains { failure := some "unavailable", colleges := fun _ => none }
      = .error .loadFailed ∧
    Error.message .loadFailed ≠ Error.message .collegeNotFound ∧
    getCollegeDomains (tenantDb (some ["a.edu"]))
      = .ok { collegeName := some "College", domains := ["a.edu"] } ∧
    getCollegeDomains (tenantDb none) = .ok { collegeName := some "College", domains := [] } ∧
    ∀ db : Db, getCollegeDomains db ≠ .error .collegeNotFound := by
  refine ⟨rfl, rfl, rfl, by decide, rfl, rfl, fun db => ?_⟩
  unfold getCollegeDomains
  split <;> simp

/-- C1: `isDomainAllowed` compares the piece between the first and the second `@`, not
what follows the last `@`. With `good.edu` the only allowed domain, `a@b@good.edu` is
refused although `good.edu` follows its last `@`, and `user@good.edu@evil.com` is allowed
although `evil.com` follows its last `@`. -/
theorem isDomainAllowed_second_piece_not_last :
    specEmailDomain "a@b@good.edu" = some "good.edu" ∧
    isDomainAllowed (tenantDb (some ["good.edu"])) "a@b@good.edu" = .ok false ∧
    specEmailDomain "user@good.edu@evil.com" = some "evil.com" ∧
    isDomainAllowed (tenantDb (some ["good.edu"])) "user@good.edu@evil.com" = .ok true := by
  refine ⟨by decide, ?_, by decide, ?_⟩
  · simp [isDomainAllowed, isDomainAllowed.body, getCollegeDomains, getCollegeDomains.body,
      getDoc, tenantDb, split, splitChars]
  · simp [isDomainAllowed, isDomainAllowed.body, getCollegeDomains, getCollegeDomains.body,
      getDoc, tenantDb, split, splitChars]

/-- C4: `isDomainAllowed` returns a boolean for every email on every store, and returns
`false` whenever `getCollegeDomains` fails, as it does on a store without the tenant
record and on a store that rejects the read. -/
theorem isDomainAllowed_never_raises (db : Db) (email : String) :
    (∃ allowed, isDomainAllowed db email = .ok allowed) ∧
    ((∃ e, getCollegeDomains db = .error e) → isDomainAllowed db email = .ok false) ∧
    (db.colleges COLLEGE_ID = none → isDomainAllowed db email = .ok false) ∧
    (db.failure ≠ none → isDomainAllowed db email = .ok false) := by
  have fails : ∀ e, getCollegeDomains db = .error e → isDomainAllowed db email = .ok false := by
    intro e h
    simp [isDomainAllowed, isDomainAllowed.body, h]
  refine ⟨?_, ?_, ?_, ?_⟩
  · unfold isDomainAllowed
    split
    · exact ⟨_, rfl⟩
    · exact ⟨false, rfl⟩
  · rintro ⟨e, h⟩
    exact fails e h
  · intro h
    apply fails .loadFailed
    unfold getCollegeDomains getCollegeDomains.body getDoc
    cases hf : db.failure <;> simp [h]
  · intro h
    apply fails .loadFailed
    unfold getCollegeDomains getCollegeDomains.body getDoc
    cases hf : db.failure
    · exact absurd hf h
    · simp

/-- The store without the tenant record is an instance of C4. -/
theorem isDomainAllowed_never_raises_witness :
    (∃ e, getCollegeDomains emptyDb = .error e) ∧ emptyDb.colleges COLLEGE_ID = none ∧
    isDomainAllowed emptyDb "user@good.edu" = .ok false ∧
    isDomainAllowed { failure := some "unavailable", colleges := fun _ => none }
      "user@good.edu" = .ok false :=
  ⟨⟨.loadFailed, rfl⟩, rfl,
    (isDomainAllowed_never_raises emptyDb "user@good.edu").2.1 ⟨.loadFailed, rfl⟩,
    (isDomainAllowed_never_raises { failure := some "unavailable", colleges := fun _ => none }
      "user@good.edu").2.2.2 (by simp)⟩

/-! ## Adding and removing a domain -/

/-- What a returning call of `addDomain` tells: the domain passed the format check, the
store answered, the tenant record was there without the domain, and the domain was
appended to its list. -/
theorem addDomain_ok_inv {db db₁ : Db} {domain : String} {now : Nat} {r : Bool}
    (h : addDomain db domain now = (.ok r, db₁)) :
    ∃ data, domainRegex.test domain = true ∧ db.failure = none ∧
      db.colleges COLLEGE_ID = some data ∧ domain ∉ data.domains.getD [] ∧ r = true ∧
      db₁ = db.put COLLEGE_ID (data.setDomains (data.domains.getD [] ++ [domain]) now) := by
  unfold addDomain at h
  split at h
  · simp at h
  · rename_i ht
    cases hf : db.failure with
    | some code => simp [getDoc, hf] at h
    | none =>
      cases hc : db.colleges COLLEGE_ID with
      | none => simp [getDoc, hf, hc] at h
      | some data =>
        simp only [getDoc, hf, hc] at h
        split at h
        · simp at h
        · rename_i hmem
          simp only [updateDoc, hf, hc, FieldValue.apply] at h
          simp at hmem
          simp [hmem] at h
          refine ⟨data, by simpa using ht, rfl, rfl, hmem, h.1, h.2.symm⟩

/-- A failing call of `addDomain` leaves the store as it was. -/
theorem addDomain_error_store {db db₁ : Db} {domain : String} {now : Nat} {e : Error}
    (h : addDomain db domain now = (.error e, db₁)) : db₁ = db := by
  unfold addDomain at h
  split at h
  · simp at h
    exact h.2.symm
  · cases hf : db.failure with
    | some code =>
      simp [getDoc, hf] at h
      exact h.2.symm
    | none =>
      cases hc : db.colleges COLLEGE_ID with
      | none =>
        simp [getDoc, hf, hc] at h
        exact h.2.symm
      | some data =>
        simp only [getDoc, hf, hc] at h
        split at h
        · simp at h
          exact h.2.symm
        · simp [updateDoc, hf, hc] at h

/-- The tenant record of the store after the document of the tenant was replaced. -/
theorem Db.put_colleges_self (db : Db) (id : String) (data : DocData) :
    (db.put id data).colleges id = some data := by
  simp [Db.put]

/-- Replacing a document leaves the failure of the store as it was. -/
theorem Db.put_failure (db : Db) (id : String) (data : DocData) :
    (db.put id data).failure = db.failure := rfl

/-- C5: on a store with the tenant record, once `addDomain` succeeded for a domain that
passes the format check, the next `addDomain` of the same domain fails with
`This domain already exists` and leaves the store as it was; and every failing call of
`addDomain`, those failing with the format error or the duplicate error among them,
leaves the store as it was. -/
theorem addDomain_twice_duplicate (db db₁ : Db) (data : DocData) (domain : String)
    (now₁ now₂ : Nat)
    (hrec : db.colleges COLLEGE_ID = some data)
    (hfmt : domainRegex.test domain = true)
    (hadd : addDomain db domain now₁ = (.ok true, db₁)) :
    addDomain db₁ domain now₂ = (.error .duplicateDomain, db₁) ∧
    Error.message .duplicateDomain = "This domain already exists" ∧
    ∀ (db₀ : Db) (d : String) (now : Nat) (e : Error),
      (addDomain db₀ d now).1 = .error e → (addDomain db₀ d now).2 = db₀ := by
  refine ⟨?_, rfl, ?_⟩
  · obtain ⟨data', -, hf, hc, -, -, hdb⟩ := addDomain_ok_inv hadd
    subst hdb
    simp [addDomain, hfmt, getDoc, Db.put_failure, hf, Db.put_colleges_self,
      DocData.setDomains]
  · intro db₀ d now e h
    exact addDomain_error_store (Prod.ext h rfl)

/-- Adding `x.edu` to a tenant record without domains is an instance of C5. -/
theorem addDomain_twice_duplicate_witness :
    addDomain (tenantDb (some [])) "x.edu" 1
      = (.ok true, (addDomain (tenantDb (some [])) "x.edu" 1).2) ∧
    addDomain (addDomain (tenantDb (some [])) "x.edu" 1).2 "x.edu" 2
      = (.error .duplicateDomain, (addDomain (tenantDb (some [])) "x.edu" 1).2) :=
  have hfmt : domainRegex.test "x.edu" = true := by decide
  have hadd : addDomain (tenantDb (some [])) "x.edu" 1
      = (.ok true, (addDomain (tenantDb (some [])) "x.edu" 1).2) :=
    Prod.ext (by simp [addDomain, hfmt, getDoc, tenantDb, updateDoc]) rfl
  ⟨hadd, (addDomain_twice_duplicate (tenantDb (some []))
    (addDomain (tenantDb (some [])) "x.edu" 1).2
    { name := some "College", domains := some [], createdAt := some 0, updatedAt := some 0 }
    "x.edu" 1 2 (by simp [tenantDb]) hfmt hadd).1⟩

/-- C7: on a store with the tenant record, whatever its domains list, once `addDomain`
succeeded `getCollegeDomains` lists the domain; the following `removeDomain` succeeds,
after it `getCollegeDomains` does not list the domain, and every other domain that was
listed before the add is still listed. -/
theorem add_get_remove_round_trip (db db₁ : Db) (data : DocData) (domain : String)
    (now₁ now₂ : Nat)
    (hrec : db.colleges COLLEGE_ID = some data)
    (hadd : addDomain db domain now₁ = (.ok true, db₁)) :
    (∃ r₁, getCollegeDomains db₁ = .ok r₁ ∧ domain ∈ r₁.domains) ∧
    ∃ db₂, removeDomain db₁ domain now₂ = (.ok true, db₂) ∧
      ∃ r₂, getCollegeDomains db₂ = .ok r₂ ∧ domain ∉ r₂.domains ∧
        ∀ other ∈ data.domains.getD [], other ≠ domain → other ∈ r₂.domains := by
  obtain ⟨data', -, hf, hc, -, -, hdb⟩ := addDomain_ok_inv hadd
  have hdata : data' = data := by
    rw [hrec] at hc
    exact (Option.some.inj hc).symm
  subst hdata
  subst hdb
  refine ⟨⟨_, by simp [getCollegeDomains, getCollegeDomains.body, getDoc, Db.put_failure, hf,
      Db.put_colleges_self]; rfl, by simp [DocData.setDomains]⟩, ?_⟩
  refine ⟨_, by simp [removeDomain, updateDoc, Db.put_failure, hf, Db.put_colleges_self]; rfl,
    ?_⟩
  refine ⟨_, by simp [getCollegeDomains, getCollegeDomains.body, getDoc, Db.put_failure, hf,
      Db.put_colleges_self]; rfl, ?_, ?_⟩
  · simp [DocData.setDomains, FieldValue.apply]
  · intro other hmem hne
    simp [DocData.setDomains, FieldValue.apply, hmem, hne]

/-- Adding `x.edu` to a tenant record that lists `a.edu` twice is an instance of C7. -/
theorem add_get_remove_round_trip_witness :
    addDomain (tenantDb (some ["a.edu", "a.edu"])) "x.edu" 1
      = (.ok true, (addDomain (tenantDb (some ["a.edu", "a.edu"])) "x.edu" 1).2) ∧
    ∃ db₂, removeDomain (addDomain (tenantDb (some ["a.edu", "a.edu"])) "x.edu" 1).2 "x.edu" 2
        = (.ok true, db₂) ∧
      ∃ r₂, getCollegeDomains db₂ = .ok r₂ ∧ "x.edu" ∉ r₂.domains ∧
        ∀ other ∈ (some ["a.edu", "a.edu"] : Option (List String)).getD [],
          other ≠ "x.edu" → other ∈ r₂.domains :=
  have hfmt : domainRegex.test "x.edu" = true := by decide
  have hadd : addDomain (tenantDb (some ["a.edu", "a.edu"])) "x.edu" 1
      = (.ok true, (addDomain (tenantDb (some ["a.edu", "a.edu"])) "x.edu" 1).2) :=
    Prod.ext (by simp [addDomain, hfmt, getDoc, tenantDb, updateDoc]) rfl
  ⟨hadd, (add_get_remove_round_trip (tenantDb (some ["a.edu", "a.edu"]))
    (addDomain (tenantDb (some ["a.edu", "a.edu"])) "x.edu" 1).2
    { name := some "College", domains := some ["a.edu", "a.edu"], createdAt := some 0,
      updatedAt := some 0 }
    "x.edu" 1 2 (by simp [tenantDb]) hadd).2⟩

/-! ## `getOrCreateCollege` -/

/-- A character list without the separator is cut into one piece, itself. -/
theorem splitChars_of_not_mem (sep : Char) (cs : List Char) (h : sep ∉ cs) :
    splitChars sep cs = [cs] := by
  induction cs with
  | nil => rfl
  | cons c cs ih =>
    have hc : c ≠ sep := fun hc => h (hc ▸ List.mem_cons_self _ _)
    have hcs : sep ∉ cs := fun hcs => h (List.mem_cons_of_mem _ hcs)
    simp [splitChars, hc, ih hcs]

/-- For an id without a slash the reference that `doc` gives has the id itself for its
path and for its `id`. -/
theorem doc_of_no_slash {collegeId : String} {collegeRef : DocumentReference}
    (hdoc : doc collegeId = .ok collegeRef) (hslash : '/' ∉ collegeId.toList) :
    collegeRef.path = collegeId ∧ collegeRef.id = collegeId := by
  have hsplit : split collegeId '/' = [collegeId] := by
    unfold split
    rw [splitChars_of_not_mem '/' collegeId.toList hslash]
    rfl
  unfold doc at hdoc
  by_cases hlen : collegeId.length > 0
  · have hseg : pathSegments collegeId = [collegeId] := by
      simp [pathSegments, hsplit, hlen]
    rw [hseg] at hdoc
    split at hdoc
    · simp at hdoc
    · simp [String.intercalate, String.intercalate.go] at hdoc
      subst hdoc
      exact ⟨rfl, rfl⟩
  · have hseg : pathSegments collegeId = [] := by
      simp [pathSegments, hsplit, hlen]
    rw [hseg] at hdoc
    split at hdoc <;> simp at hdoc

/-- The reference of the tenant record in `domainService.js`. -/
theorem doc_COLLEGE_ID : doc COLLEGE_ID = .ok { path := COLLEGE_ID, id := COLLEGE_ID } := by
  rfl

/-- The ids that `doc` refuses make `getOrCreateCollege` throw before the store is asked,
whatever the store holds; `c1/` is the reference of `c1`. -/
theorem getOrCreateCollege_refused_ids (db : Db) (name : String) (domains : List String)
    (created updated : Nat) :
    getOrCreateCollege db ⟨"", name, domains, created, updated⟩
      = (.error (.firestore "invalid-argument"), db) ∧
    getOrCreateCollege db ⟨"a/b", name, domains, created, updated⟩
      = (.error (.firestore "invalid-argument"), db) ∧
    getOrCreateCollege db ⟨"a//b/c", name, domains, created, updated⟩
      = (.error (.firestore "invalid-argument"), db) ∧
    doc "c1/" = .ok { path := "c1", id := "c1" } ∧
    doc "a/b/c" = .ok { path := "a/b/c", id := "c" } := by
  have h₁ : doc "" = .error (.firestore "invalid-argument") := by rfl
  have h₂ : doc "a/b" = .error (.firestore "invalid-argument") := by rfl
  have h₃ : doc "a//b/c" = .error (.firestore "invalid-argument") := by rfl
  refine ⟨?_, ?_, ?_, by rfl, by rfl⟩ <;>
    simp [getOrCreateCollege, getOrCreateCollege.read, h₁, h₂, h₃]

/-- What a returning call of `getOrCreateCollege` tells: `doc` accepted the id, the store
answered, and either the document was there and is returned under the `id` of the
reference, or it was not and the new one is written and returned under the `collegeId`
that was given. In both cases the store holds afterwards the data that was returned. -/
theorem getOrCreateCollege_ok_inv {db db₁ : Db} {call : CreateCall} {r : College}
    (h : getOrCreateCollege db call = (.ok r, db₁)) :
    ∃ collegeRef data, doc call.collegeId = .ok collegeRef ∧
      db.failure = none ∧ db₁.failure = none ∧ db₁.colleges collegeRef.path = some data ∧
      ((db.colleges collegeRef.path = some data ∧ db₁ = db ∧
          r = College.ofData collegeRef.id data) ∨
       (db.colleges collegeRef.path = none ∧ data = call.collegeData ∧
          db₁ = db.put collegeRef.path call.collegeData ∧
          r = College.ofData call.collegeId call.collegeData)) := by
  unfold getOrCreateCollege getOrCreateCollege.read getDoc at h
  cases hd : doc call.collegeId with
  | error e => simp [hd] at h
  | ok collegeRef =>
    cases hf : db.failure with
    | some code => simp [hd, hf] at h
    | none =>
      simp only [hd, hf] at h
      cases hc : db.colleges collegeRef.path with
      | some data =>
        simp [getOrCreateCollege.write, hc] at h
        obtain ⟨hr, hdb⟩ := h
        subst hdb
        exact ⟨collegeRef, data, rfl, rfl, hf, hc, Or.inl ⟨hc, rfl, hr.symm⟩⟩
      | none =>
        simp [getOrCreateCollege.write, hc, setDoc, hf] at h
        obtain ⟨hr, hdb⟩ := h
        subst hdb
        exact ⟨collegeRef, call.collegeData, rfl, rfl, hf, Db.put_colleges_self _ _ _,
          Or.inr ⟨hc, rfl, rfl, hr.symm⟩⟩

/-- C6 as stated fails for an id with a trailing slash: `doc` addresses `c1/` as the
document `c1`, the call that creates the record returns it under the id `c1/` that was
given, and the next call, with the same arguments, returns it under the id `c1` of the
snapshot. Name, domains and creation time agree and the store is left as it was. -/
theorem getOrCreateCollege_trailing_slash_id :
    getOrCreateCollege emptyDb
        { collegeId := "c1/", collegeName := "First", domains := ["a.edu"],
          createdNow := 1, updatedNow := 2 }
      = (.ok { id := "c1/", name := some "First", domains := some ["a.edu"],
               createdAt := some 1, updatedAt := some 2 },
         emptyDb.put "c1" { name := some "First", domains := some ["a.edu"],
                            createdAt := some 1, updatedAt := some 2 }) ∧
    getOrCreateCollege
        (emptyDb.put "c1" { name := some "First", domains := some ["a.edu"],
                            createdAt := some 1, updatedAt := some 2 })
        { collegeId := "c1/", collegeName := "First", domains := ["a.edu"],
          createdNow := 1, updatedNow := 2 }
      = (.ok { id := "c1", name := some "First", domains := some ["a.edu"],
               createdAt := some 1, updatedAt := some 2 },
         emptyDb.put "c1" { name := some "First", domains := some ["a.edu"],
                            createdAt := some 1, updatedAt := some 2 }) ∧
    ("c1" : String) ≠ "c1/" := by
  refine ⟨by rfl, by rfl, by decide⟩

/-- C6, amended: once `getOrCreateCollege` returned a record for an id, a second call for
the same id, with whatever name and domains, returns a record with the same name, domains
and creation time, and leaves the store as the first call left it; when the id has no
slash the second record has the id of the first as well. -/
theorem getOrCreateCollege_idempotent (db db₁ : Db) (call₁ call₂ : CreateCall) (r₁ : College)
    (hid : call₂.collegeId = call₁.collegeId)
    (h₁ : getOrCreateCollege db call₁ = (.ok r₁, db₁)) :
    ∃ r₂, getOrCreateCollege db₁ call₂ = (.ok r₂, db₁) ∧
      r₂.name = r₁.name ∧ r₂.domains = r₁.domains ∧ r₂.createdAt = r₁.createdAt ∧
      ('/' ∉ call₁.collegeId.toList → r₂.id = r₁.id) := by
  obtain ⟨collegeRef, data, hd, -, hf₁, hc, hcase⟩ := getOrCreateCollege_ok_inv h₁
  refine ⟨College.ofData collegeRef.id data, ?_, ?_⟩
  · simp [getOrCreateCollege, getOrCreateCollege.read, getDoc, hf₁, hid, hd, hc,
      getOrCreateCollege.write]
  · rcases hcase with ⟨-, -, hr⟩ | ⟨-, hdata, -, hr⟩
    · subst hr
      exact ⟨rfl, rfl, rfl, fun _ => rfl⟩
    · subst hr hdata
      exact ⟨rfl, rfl, rfl, fun hslash => (doc_of_no_slash hd hslash).2⟩

/-- Two first calls on the empty store with different names and domains are an instance
of C6 as amended: the second call returns the record of the first, under the same id. -/
theorem getOrCreateCollege_idempotent_witness :
    getOrCreateCollege emptyDb
        { collegeId := "c1", collegeName := "First", domains := ["a.edu"],
          createdNow := 1, updatedNow := 2 }
      = (.ok { id := "c1", name := some "First", domains := some ["a.edu"],
               createdAt := some 1, updatedAt := some 2 },
         emptyDb.put "c1" { name := some "First", domains := some ["a.edu"],
                            createdAt := some 1, updatedAt := some 2 }) ∧
    '/' ∉ ("c1" : String).toList ∧
    ∃ r₂, getOrCreateCollege
        (emptyDb.put "c1" { name := some "First", domains := some ["a.edu"],
                            createdAt := some 1, updatedAt := some 2 })
        { collegeId := "c1", collegeName := "Second", domains := ["b.edu"],
          createdNow := 3, updatedNow := 4 }
      = (.ok r₂, emptyDb.put "c1" { name := some "First", domains := some ["a.edu"],
                                    createdAt := some 1, updatedAt := some 2 }) ∧
      r₂.name = some "First" ∧ r₂.domains = some ["a.edu"] ∧ r₂.createdAt = some 1 ∧
      r₂.id = "c1" :=
  have hslash : '/' ∉ ("c1" : String).toList := by decide
  have h := getOrCreateCollege_idempotent emptyDb
    (emptyDb.put "c1" { name := some "First", domains := some ["a.edu"],
                        createdAt := some 1, updatedAt := some 2 })
    { collegeId := "c1", collegeName := "First", domains := ["a.edu"],
      createdNow := 1, updatedNow := 2 }
    { collegeId := "c1", collegeName := "Second", domains := ["b.edu"],
      createdNow := 3, updatedNow := 4 }
    { id := "c1", name := some "First", domains := some ["a.edu"],
      createdAt := some 1, updatedAt := some 2 } rfl (by rfl)
  ⟨by rfl, hslash, h.elim fun r₂ hr => ⟨r₂, hr.1, hr.2.1, hr.2.2.1, hr.2.2.2.1,
    hr.2.2.2.2 hslash⟩⟩

/-! ## The domains list has no repeated entry -/

/-- Replacing a document by one whose domains are free of repeated entries keeps the
store free of them. -/
theorem NoDuplicateDomains.put {db : Db} (h : NoDuplicateDomains db) (id : String)
    (data : DocData) (hdata : (data.domains.getD []).Nodup) :
    NoDuplicateDomains (db.put id data) := by
  intro id' data' hget
  by_cases hid : id' = id
  · subst hid
    rw [Db.put_colleges_self] at hget
    cases hget
    exact hdata
  · have : (db.put id data).colleges id' = db.colleges id' := by
      simp [Db.put, Function.update, hid]
    rw [this] at hget
    exact h id' data' hget

/-- Both sentinels turn a list free of repeated entries into one. -/
theorem FieldValue.apply_nodup (value : FieldValue) (current : Option (List String))
    (h : (current.getD []).Nodup) : (value.apply current).Nodup := by
  cases value with
  | arrayUnion element =>
    simp only [FieldValue.apply]
    split_ifs with hmem
    · exact h
    · exact List.Nodup.append h (List.nodup_singleton _) (by simpa using hmem)
  | arrayRemove element =>
    simp only [FieldValue.apply]
    exact List.Nodup.filter _ h

/-- A call of `getOrCreateCollege` with domains free of repeated entries keeps the store
free of them. -/
theorem NoDuplicateDomains.getOrCreateCollege {db : Db} (h : NoDuplicateDomains db)
    (call : CreateCall) (hcall : call.domains.Nodup) :
    NoDuplicateDomains (AdminDashboard.getOrCreateCollege db call).2 := by
  unfold AdminDashboard.getOrCreateCollege getOrCreateCollege.read getDoc
  cases hd : doc call.collegeId with
  | error e => exact h
  | ok collegeRef =>
    cases hf : db.failure with
    | some code => exact h
    | none =>
      cases hc : db.colleges collegeRef.path with
      | some data =>
        simp only [getOrCreateCollege.write, hc]
        exact h
      | none =>
        simp only [getOrCreateCollege.write, hc, setDoc, hf]
        exact h.put _ _ hcall

/-- A call of `addDomain` keeps the store free of repeated entries. -/
theorem NoDuplicateDomains.addDomain {db : Db} (h : NoDuplicateDomains db)
    (domain : String) (now : Nat) :
    NoDuplicateDomains (AdminDashboard.addDomain db domain now).2 := by
  rcases hres : AdminDashboard.addDomain db domain now with ⟨result, db₁⟩
  cases result with
  | error e =>
    rw [addDomain_error_store hres]
    exact h
  | ok r =>
    obtain ⟨data, -, -, hc, hmem, -, hdb⟩ := addDomain_ok_inv hres
    subst hdb
    apply h.put
    simp only [DocData.setDomains, Option.getD_some]
    exact List.Nodup.append (h _ _ hc) (List.nodup_singleton _) (by simpa using hmem)

/-- A call of `removeDomain` keeps the store free of repeated entries. -/
theorem NoDuplicateDomains.removeDomain {db : Db} (h : NoDuplicateDomains db)
    (domain : String) (now : Nat) :
    NoDuplicateDomains (AdminDashboard.removeDomain db domain now).2 := by
  unfold AdminDashboard.removeDomain updateDoc
  cases hf : db.failure with
  | some code => exact h
  | none =>
    cases hc : db.colleges COLLEGE_ID with
    | none => exact h
    | some data =>
      apply h.put
      simp only [DocData.setDomains, Option.getD_some]
      exact FieldValue.apply_nodup _ _ (h _ _ hc)

/-- C8 as stated fails: `getOrCreateCollege` stores the domains it is given, so one call
with `a.edu` twice, on the empty store, leaves a tenant record that lists `a.edu` twice. -/
theorem getOrCreateCollege_stores_duplicates :
    ¬ NoDuplicateDomains (runOps emptyDb
      [.create { collegeId := COLLEGE_ID, collegeName := "College",
                 domains := ["a.edu", "a.edu"], createdNow := 1, updatedNow := 1 }]) := by
  intro h
  have := h COLLEGE_ID
    { name := some "College", domains := some ["a.edu", "a.edu"], createdAt := some 1,
      updatedAt := some 1 }
    (by simp [runOps, Op.run, getOrCreateCollege, getOrCreateCollege.read, doc_COLLEGE_ID,
      getOrCreateCollege.write, getDoc, setDoc, emptyDb, Db.put, CreateCall.collegeData])
  simp at this

/-- C8, amended: in every store reached from the empty store by a sequence of calls of
`getOrCreateCollege`, `addDomain` and `removeDomain` in which every `getOrCreateCollege`
is given domains free of repeated entries, the domains list of every stored record is
free of repeated entries. -/
theorem noDuplicateDomains_reachable (ops : List Op) (hops : ∀ op ∈ ops, op.GivenNodup) :
    NoDuplicateDomains (runOps emptyDb ops) := by
  have start : NoDuplicateDomains emptyDb := by
    intro id data h
    simp [emptyDb] at h
  suffices key : ∀ (ops : List Op) (db : Db), NoDuplicateDomains db →
      (∀ op ∈ ops, op.GivenNodup) → NoDuplicateDomains (runOps db ops) from
    key ops emptyDb start hops
  intro ops
  induction ops with
  | nil => intro db h _; exact h
  | cons op ops ih =>
    intro db h hall
    have hstep : NoDuplicateDomains (Op.run db op) := by
      cases op with
      | create call =>
        exact h.getOrCreateCollege call (hall (.create call) (List.mem_cons_self _ _))
      | add domain now => exact h.addDomain domain now
      | remove domain now => exact h.removeDomain domain now
    exact ih (Op.run db op) hstep (fun o ho => hall o (List.mem_cons_of_mem _ ho))

/-- A sequence that creates the tenant record, adds a domain twice and removes one is an
instance of C8 as amended. -/
theorem noDuplicateDomains_reachable_witness :
    NoDuplicateDomains (runOps emptyDb
      [.create { collegeId := COLLEGE_ID, collegeName := "College",
                 domains := ["a.edu", "b.edu"], createdNow := 1, updatedNow := 1 },
       .add "x.edu" 2, .add "x.edu" 3, .remove "a.edu" 4]) :=
  noDuplicateDomains_reachable _ (by
    intro op hop
    simp only [List.mem_cons, List.mem_singleton, List.not_mem_nil, or_false] at hop
    rcases hop with rfl | rfl | rfl | rfl <;> simp [Op.GivenNodup])

/-! ## Two overlapping first calls of `getOrCreateCollege` -/

/-- The two steps of one caller, taken one after the other, are `getOrCreateCollege`. -/
theorem Progress.step_step (db : Db) (call : CreateCall) :
    (Progress.step (Progress.step db call .start).2 call (Progress.step db call .start).1)
      = ((Progress.returned (getOrCreateCollege db call).1), (getOrCreateCollege db call).2) := by
  unfold getOrCreateCollege
  cases h : getOrCreateCollege.read db call <;> simp [Progress.step, h]

/-- The reference of the id `c1`. -/
theorem doc_c1 : doc "c1" = .ok { path := "c1", id := "c1" } := by
  rfl

/-- C10 as stated fails: when both calls read before either writes, both find no document
and both write. On the empty store the first caller returns a record named `First`, the
second one named `Second`, and the store keeps the second: the two callers did not get
the same record. -/
theorem getOrCreateCollege_race_two_creations :
    ¬ Race.OneCreation "c1"
      (Race.run
        { collegeId := "c1", collegeName := "First", domains := ["a.edu"],
          createdNow := 1, updatedNow := 1 }
        { collegeId := "c1", collegeName := "Second", domains := ["b.edu"],
          createdNow := 2, updatedNow := 2 }
        emptyDb [false, true, false, true]) := by
  rintro ⟨r₁, r₂, data, h₁, h₂, -, hn₁, -, -, hn₂, -, -⟩
  simp [Race.run, Race.step, Progress.step, getOrCreateCollege.read, doc_c1,
    getOrCreateCollege.write, getDoc, setDoc, emptyDb, Db.put, College.ofData,
    CreateCall.collegeData] at h₁ h₂
  subst h₁ h₂
  rw [← hn₂] at hn₁
  simp at hn₁

/-- C10, amended: two first calls of `getOrCreateCollege` for the same id, an id that `doc`
accepts, on a store that answers and has no document at the path of the reference. When
one call runs after the other, one creation takes effect and both callers return the
record of the earlier call. In every other interleaving of their steps each caller returns
the record it built itself, and the store keeps the record of the caller that wrote
last. -/
theorem getOrCreateCollege_two_first_calls (db : Db) (call₁ call₂ : CreateCall)
    (collegeRef : DocumentReference)
    (hf : db.failure = none) (hdoc : doc call₁.collegeId = .ok collegeRef)
    (hnone : db.colleges collegeRef.path = none)
    (hid : call₂.collegeId = call₁.collegeId) :
    (Race.OneCreation collegeRef.path (Race.run call₁ call₂ db [false, false, true, true]) ∧
      (Race.run call₁ call₂ db [false, false, true, true]).db.colleges collegeRef.path
        = some call₁.collegeData) ∧
    (Race.OneCreation collegeRef.path (Race.run call₁ call₂ db [true, true, false, false]) ∧
      (Race.run call₁ call₂ db [true, true, false, false]).db.colleges collegeRef.path
        = some call₂.collegeData) ∧
    ∀ schedule ∈ interleavings,
      schedule ≠ [false, false, true, true] → schedule ≠ [true, true, false, false] →
      (Race.run call₁ call₂ db schedule).first
        = .returned (.ok (College.ofData call₁.collegeId call₁.collegeData)) ∧
      (Race.run call₁ call₂ db schedule).second
        = .returned (.ok (College.ofData call₂.collegeId call₂.collegeData)) ∧
      (Race.run call₁ call₂ db schedule).db.colleges collegeRef.path
        = some (if schedule.getLast? = some true then call₂.collegeData
                else call₁.collegeData) := by
  obtain ⟨id₁, name₁, domains₁, created₁, updated₁⟩ := call₁
  obtain ⟨id₂, name₂, domains₂, created₂, updated₂⟩ := call₂
  simp only at hid hdoc
  subst hid
  refine ⟨⟨?_, ?_⟩, ⟨?_, ?_⟩, ?_⟩
  · refine ⟨College.ofData id₂ (CreateCall.collegeData ⟨id₂, name₁, domains₁, created₁, updated₁⟩),
      College.ofData collegeRef.id
        (CreateCall.collegeData ⟨id₂, name₁, domains₁, created₁, updated₁⟩),
      CreateCall.collegeData ⟨id₂, name₁, domains₁, created₁, updated₁⟩, ?_⟩
    simp [Race.run, Race.step, Progress.step, getOrCreateCollege.read,
      getOrCreateCollege.write, getDoc, setDoc, hf, hnone, hdoc, Db.put, College.ofData]
  · simp [Race.run, Race.step, Progress.step, getOrCreateCollege.read,
      getOrCreateCollege.write, getDoc, setDoc, hf, hnone, hdoc, Db.put]
  · refine ⟨College.ofData collegeRef.id
        (CreateCall.collegeData ⟨id₂, name₂, domains₂, created₂, updated₂⟩),
      College.ofData id₂ (CreateCall.collegeData ⟨id₂, name₂, domains₂, created₂, updated₂⟩),
      CreateCall.collegeData ⟨id₂, name₂, domains₂, created₂, updated₂⟩, ?_⟩
    simp [Race.run, Race.step, Progress.step, getOrCreateCollege.read,
      getOrCreateCollege.write, getDoc, setDoc, hf, hnone, hdoc, Db.put, College.ofData]
  · simp [Race.run, Race.step, Progress.step, getOrCreateCollege.read,
      getOrCreateCollege.write, getDoc, setDoc, hf, hnone, hdoc, Db.put]
  · intro schedule hmem hne₁ hne₂
    simp only [interleavings, List.mem_cons, List.mem_singleton, List.not_mem_nil,
      or_false] at hmem
    rcases hmem with rfl | rfl | rfl | rfl | rfl | rfl
    · exact absurd rfl hne₁
    · simp [Race.run, Race.step, Progress.step, getOrCreateCollege.read,
        getOrCreateCollege.write, getDoc, setDoc, hf, hnone, hdoc, Db.put]
    · simp [Race.run, Race.step, Progress.step, getOrCreateCollege.read,
        getOrCreateCollege.write, getDoc, setDoc, hf, hnone, hdoc, Db.put]
    · simp [Race.run, Race.step, Progress.step, getOrCreateCollege.read,
        getOrCreateCollege.write, getDoc, setDoc, hf, hnone, hdoc, Db.put]
    · simp [Race.run, Race.step, Progress.step, getOrCreateCollege.read,
        getOrCreateCollege.write, getDoc, setDoc, hf, hnone, hdoc, Db.put]
    · exact absurd rfl hne₂

/-- Two first calls on the empty store are an instance of C10 as amended: run one after
the other they agree on the record of the earlier call, and when the second caller reads
and writes between the read and the write of the first, the store keeps the record of the
first caller, which wrote last. -/
theorem getOrCreateCollege_two_first_calls_witness :
    emptyDb.failure = none ∧ doc "c1" = .ok { path := "c1", id := "c1" } ∧
    emptyDb.colleges "c1" = none ∧
    Race.OneCreation "c1"
      (Race.run
        { collegeId := "c1", collegeName := "First", domains := ["a.edu"],
          createdNow := 1, updatedNow := 1 }
        { collegeId := "c1", collegeName := "Second", domains := ["b.edu"],
          createdNow := 2, updatedNow := 2 }
        emptyDb [false, false, true, true]) ∧
    (Race.run
        { collegeId := "c1", collegeName := "First", domains := ["a.edu"],
          createdNow := 1, updatedNow := 1 }
        { collegeId := "c1", collegeName := "Second", domains := ["b.edu"],
          createdNow := 2, updatedNow := 2 }
        emptyDb [false, true, true, false]).db.colleges "c1"
      = some { name := some "First", domains := some ["a.edu"], createdAt := some 1,
               updatedAt := some 1 } :=
  ⟨rfl, by rfl, rfl,
    (getOrCreateCollege_two_first_calls emptyDb
      { collegeId := "c1", collegeName := "First", domains := ["a.edu"],
        createdNow := 1, updatedNow := 1 }
      { collegeId := "c1", collegeName := "Second", domains := ["b.edu"],
        createdNow := 2, updatedNow := 2 }
      { path := "c1", id := "c1" } rfl (by rfl) rfl rfl).1.1,
    ((getOrCreateCollege_two_first_calls emptyDb
      { collegeId := "c1", collegeName := "First", domains := ["a.edu"],
        createdNow := 1, updatedNow := 1 }
      { collegeId := "c1", collegeName := "Second", domains := ["b.edu"],
        createdNow := 2, updatedNow := 2 }
      { path := "c1", id := "c1" } rfl (by rfl) rfl rfl).2.2
      [false, true, true, false] (by simp [interleavings]) (by simp) (by simp)).2.2⟩

end AdminDashboard
